import Mathlib

/-!
Verification of the PolyTrader Python strategy SDK and the example
market-maker strategy.

The embedding mirrors the two source files:
  - src/python_strategies/sdk/__init__.py (order queue, convenience helpers)
  - src/python_strategies/examples/market_maker.py (strategy hooks)

Python floats are modelled as rationals; Python dicts whose relevant keys
may be absent are modelled as structures with Option fields, and every
`dict.get(key, default)` in the source becomes `Option.getD`.  Python
`round(x, 4)` is modelled as rounding `x * 10000` to the nearest integer
(Python uses round-half-to-even on binary floats; the two agree on every
value appearing below, which are exact multiples of 1/10000).
-/

namespace PolyTrader

/-- Order side enumeration, from `OrderSide` in the SDK. -/
inductive OrderSide where
  | BUY
  | SELL
deriving DecidableEq

/-- Order type enumeration, from `OrderType` in the SDK. -/
inductive OrderType where
  | MARKET
  | LIMIT
  | GTC
  | GTD
  | FOK
  | FAK
deriving DecidableEq

/-- Parsing of a side string, `OrderSide(side)` in the SDK; `none` models the
`ValueError` raised on an unrecognized string. -/
def parseSide (s : String) : Option OrderSide :=
  if s = "BUY" then some OrderSide.BUY
  else if s = "SELL" then some OrderSide.SELL
  else none

/-- Parsing of an order-type string, `OrderType(order_type)` in the SDK;
`none` models the `ValueError` raised on an unrecognized string. -/
def parseType (s : String) : Option OrderType :=
  if s = "MARKET" then some OrderType.MARKET
  else if s = "LIMIT" then some OrderType.LIMIT
  else if s = "GTC" then some OrderType.GTC
  else if s = "GTD" then some OrderType.GTD
  else if s = "FOK" then some OrderType.FOK
  else if s = "FAK" then some OrderType.FAK
  else none

/-- The `Order` dataclass of the SDK (the objects held in
`Trading._pending_orders`). -/
structure SdkOrder where
  market_id : String
  token_id : String
  side : OrderSide
  type : OrderType
  size : ℚ
  price : Option ℚ
deriving DecidableEq

/-- `Trading.place_order`: builds an `Order` from its arguments and appends it
to the pending queue.  The queue (`Trading._pending_orders`) is passed and
returned explicitly; `none` models the `ValueError` raised by
`OrderSide(side)` / `OrderType(order_type)` on unrecognized strings, in which
case the queue is unchanged.  No other validation is performed by the source. -/
def place_order (pending : List SdkOrder) (market_id token_id side order_type : String)
    (size : ℚ) (price : Option ℚ) : Option (List SdkOrder) :=
  match parseSide side, parseType order_type with
  | some sd, some ty => some (pending ++ [⟨market_id, token_id, sd, ty, size, price⟩])
  | _, _ => none

/-- `Trading.get_pending_orders`: returns (a copy of) the pending queue. -/
def get_pending_orders (pending : List SdkOrder) : List SdkOrder :=
  pending

/-- `Trading.clear_pending_orders`: resets the pending queue to empty. -/
def clear_pending_orders (_pending : List SdkOrder) : List SdkOrder :=
  []

/-- One drain step of the host: read the pending orders, then clear the queue.
Returns the delivered sequence together with the queue state afterwards. -/
def drain (pending : List SdkOrder) : List SdkOrder × List SdkOrder :=
  (get_pending_orders pending, clear_pending_orders pending)

/-- The SDK convenience function `buy` as called without an explicit
`order_type`: its default `order_type="LIMIT"` is applied (the `price`
parameter defaults to `None` in the source, modelled by passing `none`). -/
def buy (pending : List SdkOrder) (market_id token_id : String) (size : ℚ)
    (price : Option ℚ) : Option (List SdkOrder) :=
  place_order pending market_id token_id "BUY" "LIMIT" size price

/-- The SDK convenience function `sell` as called without an explicit
`order_type`: its default `order_type="MARKET"` is applied (the `price`
parameter defaults to `None` in the source, modelled by passing `none`). -/
def sell (pending : List SdkOrder) (market_id token_id : String) (size : ℚ)
    (price : Option ℚ) : Option (List SdkOrder) :=
  place_order pending market_id token_id "SELL" "MARKET" size price

/-- A position dict as consumed by the strategy code.  Only the keys
`market_id` and `size` are ever read (`pos.market_id` in `get_position`,
`position.get('size', 0)` in the strategy); the remaining keys of the source
`Position` record cannot influence any modelled function and are omitted.
A dict lacking the `size` key behaves exactly like `size = 0` here. -/
structure PositionDict where
  market_id : String
  size : ℚ
deriving DecidableEq

/-- A market dict as consumed by `propose_orders`: only `token_id`,
`midpoint` and `spread` are read, each through `.get` with a default, so each
is an Option. -/
structure MarketDict where
  token_id : Option String
  midpoint : Option ℚ
  spread : Option ℚ
deriving DecidableEq

/-- An order dict as produced by `propose_orders` and consumed by
`risk_check`.  Every field is read through `.get`, so every field is an
Option; `side` and `type` are the raw strings of the dict. -/
structure OrderDict where
  market_id : Option String
  token_id : Option String
  side : Option String
  type : Option String
  size : Option ℚ
  price : Option ℚ
deriving DecidableEq

/-- The context dict passed to `propose_orders` / `risk_check`.  `market_ids`
models `context['parameters']['market_ids']` (the only parameter read).  The
`.get` defaults of the source (`[]`, `0`, `{}`) make a context with a missing
key behave exactly like one of these structures carrying the default value. -/
structure ContextDict where
  positions : List PositionDict
  balance : ℚ
  market_data : List (String × MarketDict)
  market_ids : List String
deriving DecidableEq

/-- The SDK helper `get_position`: first position whose `market_id` matches. -/
def get_position (positions : List PositionDict) (market_id : String) :
    Option PositionDict :=
  positions.find? (fun pos => pos.market_id == market_id)

/-- `market_data.get(market_id)`: dict lookup on the context's market data. -/
def lookupMarket (market_data : List (String × MarketDict)) (market_id : String) :
    Option MarketDict :=
  (market_data.find? (fun kv => kv.fst == market_id)).map (fun kv => kv.snd)

/-- The strategy's module-level parameters `SPREAD_PERCENT`, `ORDER_SIZE`,
`MAX_POSITION` (the globals read by `propose_orders` and `risk_check`). -/
structure Params where
  SPREAD_PERCENT : ℚ
  ORDER_SIZE : ℚ
  MAX_POSITION : ℚ
deriving DecidableEq

/-- The module-level defaults of market_maker.py:
`SPREAD_PERCENT = 0.02`, `ORDER_SIZE = 10`, `MAX_POSITION = 100`. -/
def defaultParams : Params :=
  ⟨2/100, 10, 100⟩

/-- A config dict as consumed by the strategy: only the keys
`spread_percent`, `order_size` and `max_position` are read, each through
`config.get(key, current_global)`. -/
structure Config where
  spread_percent : Option ℚ
  order_size : Option ℚ
  max_position : Option ℚ
deriving DecidableEq

/-- The strategy hook `initialize(config)` (that name is reserved in Lean):
re-assigns each global from the config, keeping the current value when the
key is absent. -/
def initializeStrategy (config : Config) (p : Params) : Params :=
  ⟨config.spread_percent.getD p.SPREAD_PERCENT,
   config.order_size.getD p.ORDER_SIZE,
   config.max_position.getD p.MAX_POSITION⟩

/-- Python `round(x, 4)` on the exact rational value. -/
def round4 (x : ℚ) : ℚ :=
  ((round (x * 10000) : ℤ) : ℚ) / 10000

/-- The body of the `for market_id in target_markets` loop of
`propose_orders`: possibly appends a BUY and then possibly a SELL dict to the
accumulated order list. -/
def processMarket (P : Params) (context : ContextDict) (orders : List OrderDict)
    (market_id : String) : List OrderDict :=
  match lookupMarket context.market_data market_id with
  | none => orders
  | some market =>
    let current_size : ℚ :=
      match get_position context.positions market_id with
      | some pos => pos.size
      | none => 0
    let midpoint := market.midpoint.getD (1/2)
    let spread := market.spread.getD (1/10)
    let buy_price0 := midpoint * (1 - P.SPREAD_PERCENT)
    let sell_price0 := midpoint * (1 + P.SPREAD_PERCENT)
    let buy_price :=
      if sell_price0 - buy_price0 < spread then midpoint - spread / 2 else buy_price0
    let sell_price :=
      if sell_price0 - buy_price0 < spread then midpoint + spread / 2 else sell_price0
    let orders2 :=
      if current_size < P.MAX_POSITION then
        let buy_size := min P.ORDER_SIZE (P.MAX_POSITION - current_size)
        if buy_size > 0 ∧ context.balance ≥ buy_size * buy_price then
          orders ++ [⟨some market_id, market.token_id, some "BUY", some "LIMIT",
                      some buy_size, some (round4 buy_price)⟩]
        else orders
      else orders
    if current_size > 0 then
      orders2 ++ [⟨some market_id, market.token_id, some "SELL", some "LIMIT",
                   some (min P.ORDER_SIZE current_size), some (round4 sell_price)⟩]
    else orders2

/-- The strategy hook `propose_orders(context)`: iterates the target markets
in order, accumulating candidate order dicts. -/
def propose_orders (P : Params) (context : ContextDict) : List OrderDict :=
  context.market_ids.foldl (processMarket P context) []

/-- `get_position(positions, order.get('market_id'))` as performed by
`risk_check`: a missing `market_id` key (Python `None`) matches no position. -/
def positionFor (order : OrderDict) (context : ContextDict) : Option PositionDict :=
  match order.market_id with
  | some mid => get_position context.positions mid
  | none => none

/-- The `current_size` local of `risk_check`:
`position.get('size', 0) if position else 0`. -/
def currentSizeFor (order : OrderDict) (context : ContextDict) : ℚ :=
  match positionFor order context with
  | some pos => pos.size
  | none => 0

/-- The strategy hook `risk_check(order, context)` of market_maker.py:
position-limit check for BUY, no-short check for SELL, then the price check
`price < 0.01 or price > 0.99` with `price = order.get('price', 0)`. -/
def risk_check (P : Params) (order : OrderDict) (context : ContextDict) : Bool :=
  if order.side = some "BUY" ∧
      currentSizeFor order context + order.size.getD 0 > P.MAX_POSITION then false
  else if order.side = some "SELL" ∧
      order.size.getD 0 > currentSizeFor order context then false
  else if order.price.getD 0 < 1/100 ∨ order.price.getD 0 > 99/100 then false
  else true

/-- String form of a side, for converting a queued `Order` back to the dict
handed to `risk_check` (the enum's `.value`). -/
def sideStr : OrderSide → String
  | OrderSide.BUY => "BUY"
  | OrderSide.SELL => "SELL"

/-- String form of an order type (the enum's `.value`). -/
def typeStr : OrderType → String
  | OrderType.MARKET => "MARKET"
  | OrderType.LIMIT => "LIMIT"
  | OrderType.GTC => "GTC"
  | OrderType.GTD => "GTD"
  | OrderType.FOK => "FOK"
  | OrderType.FAK => "FAK"

/-- The dict view of a queued SDK order, as `risk_check` would receive it. -/
def orderToDict (o : SdkOrder) : OrderDict :=
  ⟨some o.market_id, some o.token_id, some (sideStr o.side), some (typeStr o.type),
   some o.size, o.price⟩

/-- One call into the trading interface: `Trading.place_order` with raw
strings, or the convenience `buy` / `sell` wrappers with their defaults. -/
inductive TradeCall where
  | place (market_id token_id side order_type : String) (size : ℚ) (price : Option ℚ)
  | buyCall (market_id token_id : String) (size : ℚ) (price : Option ℚ)
  | sellCall (market_id token_id : String) (size : ℚ) (price : Option ℚ)

/-- Effect of one trading call on the pending queue (a call whose side/type
string fails to parse raises before the append, leaving the queue unchanged). -/
def applyCall (pending : List SdkOrder) : TradeCall → List SdkOrder
  | TradeCall.place market_id token_id side order_type size price =>
      (place_order pending market_id token_id side order_type size price).getD pending
  | TradeCall.buyCall market_id token_id size price =>
      (buy pending market_id token_id size price).getD pending
  | TradeCall.sellCall market_id token_id size price =>
      (sell pending market_id token_id size price).getD pending

/-- Effect of a sequence of trading calls on the pending queue. -/
def runCalls (pending : List SdkOrder) : List TradeCall → List SdkOrder
  | [] => pending
  | c :: cs => runCalls (applyCall pending c) cs

/-- The order a single call appends, if its side/type strings parse. -/
def callOrder : TradeCall → Option SdkOrder
  | TradeCall.place market_id token_id side order_type size price =>
      match parseSide side, parseType order_type with
      | some sd, some ty => some ⟨market_id, token_id, sd, ty, size, price⟩
      | _, _ => none
  | TradeCall.buyCall market_id token_id size price =>
      some ⟨market_id, token_id, OrderSide.BUY, OrderType.LIMIT, size, price⟩
  | TradeCall.sellCall market_id token_id size price =>
      some ⟨market_id, token_id, OrderSide.SELL, OrderType.MARKET, size, price⟩

/-- A queued order whose price (1.50) fails the strategy's risk check. -/
def badOrder : SdkOrder :=
  ⟨"m", "t", OrderSide.BUY, OrderType.LIMIT, 10, some (3/2)⟩

/-- The context of the spec's scenario: one target market with midpoint 0.50
and spread 0.10, no position, balance 100. -/
def ctx2 : ContextDict :=
  ⟨[], 100, [("m1", ⟨some "t1", some (1/2), some (1/10)⟩)], ["m1"]⟩

/-- A LIMIT BUY priced exactly at the lower endpoint 0.01. -/
def o3e : OrderDict :=
  ⟨some "mC", some "tC", some "BUY", some "LIMIT", some 1, some (1/100)⟩

/-- A well-formed LIMIT BUY at price 0.50, size 10. -/
def o3 : OrderDict :=
  ⟨some "mA", some "tA", some "BUY", some "LIMIT", some 10, some (1/2)⟩

/-- An empty-position context with balance 100. -/
def ctx3 : ContextDict :=
  ⟨[], 100, [], []⟩

/-- A LIMIT BUY at price 0.50, size 10 (cost 5). -/
def o4 : OrderDict :=
  ⟨some "mB", some "tB", some "BUY", some "LIMIT", some 10, some (1/2)⟩

/-- An empty-position context whose balance is 0. -/
def ctx4 : ContextDict :=
  ⟨[], 0, [], []⟩

/-- A LIMIT BUY at price 0.50, size 10, used as an accepted order. -/
def o5 : OrderDict :=
  ⟨some "mD", some "tD", some "BUY", some "LIMIT", some 10, some (1/2)⟩

/-- An empty-position context with balance 100. -/
def ctx5 : ContextDict :=
  ⟨[], 100, [], []⟩

/-- A MARKET SELL of size 5 with no price. -/
def o7 : OrderDict :=
  ⟨some "mkt", some "tok", some "SELL", some "MARKET", some 5, none⟩

/-- A context holding a position of size 10 in the sold market. -/
def ctx7 : ContextDict :=
  ⟨[⟨"mkt", 10⟩], 100, [], []⟩

end PolyTrader

namespace PolyTrader

/-- One trading call appends exactly the order it parses (or nothing). -/
theorem applyCall_eq (pending : List SdkOrder) (c : TradeCall) :
    applyCall pending c = pending ++ (callOrder c).toList := by
  cases c with
  | place market_id token_id side order_type size price =>
      rcases hs : parseSide side with _ | sd <;>
        rcases ht : parseType order_type with _ | ty <;>
          simp [applyCall, callOrder, place_order, hs, ht]
  | buyCall market_id token_id size price =>
      simp [applyCall, callOrder, buy, place_order, parseSide, parseType]
  | sellCall market_id token_id size price =>
      simp [applyCall, callOrder, sell, place_order, parseSide, parseType]

/-- Claim C1, counterexample: a single `Trading.place_order` call queues a
LIMIT BUY priced at 1.50, and the strategy's `risk_check` rejects exactly that
order in the cycle's context — the queue does contain an order that fails the
risk check. -/
theorem C1_risk_failing_order_enters_queue :
    runCalls [] [TradeCall.place "m" "t" "BUY" "LIMIT" 10 (some (3/2))] = [badOrder] ∧
    risk_check defaultParams (orderToDict badOrder) ⟨[], 1000, [], []⟩ = false := by
  constructor
  · simp [runCalls, applyCall, place_order, parseSide, parseType, badOrder]
  · norm_num [risk_check, currentSizeFor, positionFor, get_position, orderToDict,
      badOrder, sideStr, typeStr, defaultParams] <;> decide

/-- Claim C1, amended: after any sequence of `place_order` / `buy` / `sell`
calls, the pending queue holds exactly the successfully parsed orders of those
calls, in call order — orders are appended unconditionally and `risk_check` is
never consulted by the SDK queue. -/
theorem C1_queue_is_all_parsed_orders (pending : List SdkOrder) (calls : List TradeCall) :
    runCalls pending calls = pending ++ calls.filterMap callOrder := by
  induction calls generalizing pending with
  | nil => simp [runCalls]
  | cons c cs ih =>
      rw [runCalls, ih, applyCall_eq]
      cases hc : callOrder c <;> simp [hc]

/-- Claim C2, counterexample: in the spec's scenario (midpoint 0.50, spread
0.10, no position, balance 100, default parameters) the single proposed order
has price 0.45, not the claimed 0.49. -/
theorem C2_price_is_not_049 :
    (propose_orders defaultParams ctx2).map (fun o => o.price) = [some (45/100)] ∧
      (45/100 : ℚ) ≠ 49/100 := by
  constructor
  · norm_num [propose_orders, processMarket, lookupMarket, get_position, round4,
      defaultParams, round_eq, ctx2]
  · norm_num

/-- Claim C2, amended: in that scenario `propose_orders` returns exactly one
order, a BUY of size 10 at price 0.45 — the strategy widens its quotes to the
market spread (midpoint − spread/2 = 0.45) because 0.50·(1−0.02) = 0.49 and
0.50·(1+0.02) = 0.51 are only 0.02 apart, narrower than the market spread
0.10 — and no SELL order (no position). -/
theorem C2_scenario_one_buy_at_045 :
    propose_orders defaultParams ctx2 =
      [⟨some "m1", some "t1", some "BUY", some "LIMIT", some 10, some (45/100)⟩] := by
  norm_num [propose_orders, processMarket, lookupMarket, get_position, round4,
    defaultParams, round_eq, ctx2]

/-- Claim C3, counterexample: a LIMIT order priced exactly at the endpoint
0.01 passes `risk_check` — the accepted interval is closed, not open, so a
price equal to an endpoint is not rejected. -/
theorem C3_endpoint_price_accepted :
    risk_check defaultParams o3e ⟨[], 100, [], []⟩ = true ∧
      o3e.type = some "LIMIT" ∧ o3e.price = some (1/100) ∧ ¬((1 : ℚ)/100 < 1/100) := by
  refine ⟨?_, rfl, rfl, by norm_num⟩
  norm_num [risk_check, currentSizeFor, positionFor, get_position, o3e, defaultParams] <;>
    decide

/-- Claim C3, amended: for every non-MARKET order accepted by `risk_check`,
the price is present and lies in the closed interval [0.01, 0.99] (endpoints
included). -/
theorem C3_accepted_limit_price_in_closed_interval (P : Params) (order : OrderDict)
    (context : ContextDict) (hty : order.type ≠ some "MARKET")
    (h : risk_check P order context = true) :
    ∃ pr : ℚ, order.price = some pr ∧ 1/100 ≤ pr ∧ pr ≤ 99/100 := by
  clear hty
  unfold risk_check at h
  split at h
  · exact Bool.noConfusion h
  · split at h
    · exact Bool.noConfusion h
    · split at h
      · exact Bool.noConfusion h
      · rename_i h3
        push_neg at h3
        obtain ⟨hlo, hhi⟩ := h3
        cases hp : order.price with
        | none =>
            rw [hp] at hlo
            norm_num at hlo
        | some pr =>
            rw [hp] at hlo hhi
            exact ⟨pr, rfl, by simpa using hlo, by simpa using hhi⟩

/-- Claim C3, witness: a concrete accepted LIMIT order with a price in the
closed interval. -/
theorem C3_closed_interval_witness :
    ∃ pr : ℚ, o3.price = some pr ∧ 1/100 ≤ pr ∧ pr ≤ 99/100 :=
  C3_accepted_limit_price_in_closed_interval defaultParams o3 ctx3
    (by decide)
    (by norm_num [risk_check, currentSizeFor, positionFor, get_position, o3, ctx3,
          defaultParams] <;> decide)

/-- Claim C4, counterexample: a BUY of cost 5 passes `risk_check` in a context
whose balance is 0 — there is no solvency check in the strategy's risk gate. -/
theorem C4_insolvent_buy_accepted :
    risk_check defaultParams o4 ctx4 = true ∧
      ctx4.balance < o4.size.getD 0 * o4.price.getD 0 := by
  constructor
  · norm_num [risk_check, currentSizeFor, positionFor, get_position, o4, ctx4,
      defaultParams] <;> decide
  · norm_num [o4, ctx4]

/-- Claim C4, amended: `risk_check` performs no solvency check at all — its
result is independent of the context's balance (solvency is only screened
earlier, inside `propose_orders`, via `balance >= buy_size * buy_price`). -/
theorem C4_risk_check_ignores_balance (P : Params) (order : OrderDict)
    (positions : List PositionDict) (b1 b2 : ℚ)
    (market_data : List (String × MarketDict)) (market_ids : List String) :
    risk_check P order ⟨positions, b1, market_data, market_ids⟩ =
      risk_check P order ⟨positions, b2, market_data, market_ids⟩ := rfl

/-- Claim C5: whenever `risk_check` accepts, a BUY keeps the position at or
below `MAX_POSITION` and a SELL never exceeds the current position size,
where the current size is that of the first context position matching the
order's market (0 when none matches). -/
theorem C5_position_limits_enforced (P : Params) (order : OrderDict) (context : ContextDict)
    (h : risk_check P order context = true) :
    (order.side = some "BUY" →
      currentSizeFor order context + order.size.getD 0 ≤ P.MAX_POSITION) ∧
    (order.side = some "SELL" →
      order.size.getD 0 ≤ currentSizeFor order context) := by
  unfold risk_check at h
  by_cases h1 : order.side = some "BUY" ∧
      currentSizeFor order context + order.size.getD 0 > P.MAX_POSITION
  · rw [if_pos h1] at h
    exact Bool.noConfusion h
  · rw [if_neg h1] at h
    by_cases h2 : order.side = some "SELL" ∧
        order.size.getD 0 > currentSizeFor order context
    · rw [if_pos h2] at h
      exact Bool.noConfusion h
    · refine ⟨fun hb => ?_, fun hs => ?_⟩
      · by_contra hgt
        exact h1 ⟨hb, not_le.mp hgt⟩
      · by_contra hgt
        exact h2 ⟨hs, not_le.mp hgt⟩

/-- Claim C5, witness: the position-limit bounds instantiated at a concrete
accepted BUY. -/
theorem C5_position_limits_witness :
    (o5.side = some "BUY" →
      currentSizeFor o5 ctx5 + o5.size.getD 0 ≤ defaultParams.MAX_POSITION) ∧
    (o5.side = some "SELL" →
      o5.size.getD 0 ≤ currentSizeFor o5 ctx5) :=
  C5_position_limits_enforced defaultParams o5 ctx5
    (by norm_num [risk_check, currentSizeFor, positionFor, get_position, o5, ctx5,
          defaultParams] <;> decide)

/-- Claim C6, counterexample: `place_order` appends an order whose size is −5
and whose price is absent despite type LIMIT — no validation happens at the
queue boundary, so the malformed order does reach the pending queue. -/
theorem C6_malformed_order_queued :
    place_order [] "m" "t" "BUY" "LIMIT" (-5) none =
      some [⟨"m", "t", OrderSide.BUY, OrderType.LIMIT, -5, none⟩] ∧ (-5 : ℚ) ≤ 0 :=
  ⟨rfl, by norm_num⟩

/-- Claim C6, amended: `place_order` validates only the side / order-type
strings (unrecognized ones raise); for any recognized side and type it appends
the order regardless of size or missing price. -/
theorem C6_place_order_skips_validation (pending : List SdkOrder)
    (market_id token_id : String) (sd : OrderSide) (ty : OrderType)
    (size : ℚ) (price : Option ℚ) :
    place_order pending market_id token_id (sideStr sd) (typeStr ty) size price =
      some (pending ++ [⟨market_id, token_id, sd, ty, size, price⟩]) := by
  cases sd <;> cases ty <;> rfl

/-- Claim C7, counterexample: a MARKET SELL of size 5 with no price, against a
position of size 10, is rejected by `risk_check` — the price check applies to
MARKET orders too (the missing price defaults to 0, below the floor). -/
theorem C7_market_sell_rejected :
    risk_check defaultParams o7 ctx7 = false ∧ o7.type = some "MARKET" ∧
      o7.price = none ∧ o7.size.getD 0 ≤ currentSizeFor o7 ctx7 := by
  refine ⟨?_, rfl, rfl, ?_⟩
  · norm_num [risk_check, currentSizeFor, positionFor, get_position, o7, ctx7,
      defaultParams, List.find?] <;> decide
  · norm_num [currentSizeFor, positionFor, get_position, o7, ctx7, List.find?]

/-- Claim C7, amended: the price-sanity check is applied to every order type;
any order without a price — MARKET orders included — is always rejected,
because the missing price defaults to 0 < 0.01. -/
theorem C7_priceless_order_always_rejected (P : Params) (order : OrderDict)
    (context : ContextDict) (h : order.price = none) :
    risk_check P order context = false := by
  unfold risk_check
  rw [h]
  norm_num

/-- Claim C7, witness: the concrete MARKET SELL with no price is rejected. -/
theorem C7_priceless_witness : risk_check defaultParams o7 ctx7 = false :=
  C7_priceless_order_always_rejected defaultParams o7 ctx7 rfl

/-- Claim C8: `initialize` is idempotent — applying it twice with the same
config leaves the parameter globals exactly as one application does, hence
`propose_orders` output is unchanged for the same context. -/
theorem C8_initialize_idempotent (config : Config) (p : Params) (context : ContextDict) :
    initializeStrategy config (initializeStrategy config p) =
        initializeStrategy config p ∧
      propose_orders (initializeStrategy config (initializeStrategy config p)) context =
        propose_orders (initializeStrategy config p) context := by
  have h : initializeStrategy config (initializeStrategy config p) =
      initializeStrategy config p := by
    rcases config with ⟨sp, os, mp⟩
    cases sp <;> cases os <;> cases mp <;> rfl
  exact ⟨h, by rw [h]⟩

/-- Claim C9: draining the queue (read then clear) twice in a row yields the
empty sequence the second time, for every initial queue state. -/
theorem C9_double_drain_empty (pending : List SdkOrder) :
    (drain (drain pending).snd).fst = [] := rfl

/-- Claim C10: without an explicit order type, `buy` queues a LIMIT order and
`sell` queues a MARKET order, the price staying whatever was supplied
(absent by default). -/
theorem C10_buy_sell_default_types (pending : List SdkOrder) (market_id token_id : String)
    (size : ℚ) (price : Option ℚ) :
    buy pending market_id token_id size price =
      some (pending ++ [⟨market_id, token_id, OrderSide.BUY, OrderType.LIMIT, size, price⟩]) ∧
    sell pending market_id token_id size price =
      some (pending ++ [⟨market_id, token_id, OrderSide.SELL, OrderType.MARKET, size, price⟩]) :=
  ⟨rfl, rfl⟩

end PolyTrader
